import Mathlib

/-
Verification of the path-parameter validation logic of the
proteinevolution/luigi-bio-ext repository.

The repository holds two near-duplicate validators:
  * src/bioluigi/parameter.py      — FileParameter / SequenceFileParameter,
    where FileParameter.parse stores the resolved path on the instance;
  * src/src/luigibio/parameter.py  — FileParameter only, which returns the
    resolved path without storing it.

The filesystem probes (os.path.abspath / islink / isfile / exists) and the
content extractor are inputs of the validation, so they are embedded as an
explicit read-only environment record.  Raised ValueError exceptions are
embedded as `Except.error` carrying the exception message.
-/

/-- Modelled from the spec: `SequenceFileStats` (module `bioluigi/sequence.py`,
which is not under src/) is "an abstract structural summary of decoded file
content, produced by an external extractor, consumed only by the predicate".
It is embedded as a wrapper around an abstract payload. -/
structure SequenceFileStats where
  view : Nat
deriving DecidableEq

/-- Filesystem environment consumed by the validators: the `os.path` probes
`abspath`, `islink`, `isfile` and `exists` imported at the top of both
parameter modules, plus the content-decoding capability
`SequenceFileStats.from_file` of the sequence module.  Validation only reads
this state; `from_file` may fail (malformed content), which the source
surfaces as a propagated exception, embedded here as `Except.error`. -/
structure Fs where
  abspath : String → String
  islink : String → Bool
  isfile : String → Bool
  pathExists : String → Bool
  from_file : Option String → String → Except String SequenceFileStats

/-- Modelled from the spec: `value_error_if` (module `bioluigi/util.py`, which
is not under src/; an identical helper backs the `luigibio` copy).  Following
the propagation policy — "every error is raised immediately at the point of
detection" — it raises the given message as a ValueError when the condition
holds and otherwise does nothing. -/
def value_error_if (condition : Bool) (message : String) : Except String Unit :=
  if condition then Except.error message else Except.ok ()

/-- Embeds the `FileExistence` enumeration (src/bioluigi/parameter.py, lines
9-11; src/src/luigibio/parameter.py, lines 7-9, an identical copy). -/
inductive FileExistence where
  | EXISTING
  | NON_EXISTING
deriving DecidableEq, BEq

namespace bioluigi

/-- Embeds the state of a `FileParameter` instance (src/bioluigi/parameter.py):
the declared `existence` requirement and the `absolute_path` slot, which is
`None` until a successful `parse` stores a path into it. -/
structure FileParameter where
  existence : FileExistence
  absolute_path : Option String
deriving DecidableEq

/-- Embeds `FileParameter.__init__` (src/bioluigi/parameter.py, lines 20-23):
stores the requirement and initializes `absolute_path` to `None`. -/
def FileParameter.init (existence : FileExistence) : FileParameter :=
  { existence := existence, absolute_path := none }

/-- Embeds `FileParameter.parse` (src/bioluigi/parameter.py, lines 25-38).
Returns the outcome of the call (ValueError message, or the resolved path)
together with the instance state after the call; the source assigns
`self.absolute_path` only after all three checks have passed.  The link
message is the source's literal string: the source never applies `.format`
to it, so the braces stay in the message. -/
def FileParameter.parse (fs : Fs) (self : FileParameter) (x : String) :
    Except String String × FileParameter :=
  let absolute_path := fs.abspath x
  match value_error_if (fs.islink absolute_path)
      "File \x7b\x7d is a symbolic link. This is currently not supported" with
  | Except.error e => (Except.error e, self)
  | Except.ok _ =>
    match value_error_if
        ((self.existence == FileExistence.EXISTING) && !(fs.isfile absolute_path))
        ("File " ++ absolute_path ++ " does not exist or it is not a regular file!") with
    | Except.error e => (Except.error e, self)
    | Except.ok _ =>
      match value_error_if
          ((self.existence == FileExistence.NON_EXISTING) && fs.pathExists absolute_path)
          ("File " ++ absolute_path ++ " exists, but it must not!") with
      | Except.error e => (Except.error e, self)
      | Except.ok _ =>
        (Except.ok absolute_path, { self with absolute_path := some absolute_path })

/-- Embeds a `SequenceFileParameter` instance (src/bioluigi/parameter.py, lines
41-65): the inherited `FileParameter` state plus the declaration-time content
predicate. -/
structure SequenceFileParameter extends FileParameter where
  predicate : SequenceFileStats → Bool

/-- Embeds `SequenceFileParameter.__init__` (src/bioluigi/parameter.py, lines
48-50): delegates to the superclass constructor with `existence` fixed to
`FileExistence.EXISTING` — the call passes it explicitly and no other value
can be supplied — and stores the predicate. -/
def SequenceFileParameter.init (predicate : SequenceFileStats → Bool) :
    SequenceFileParameter :=
  { toFileParameter := FileParameter.init FileExistence.EXISTING,
    predicate := predicate }

/-- Embeds `SequenceFileParameter.stats` (src/bioluigi/parameter.py, lines
52-53): invokes the content extractor on the instance's stored path with the
fixed format tag "fasta". -/
def SequenceFileParameter.stats (fs : Fs) (self : SequenceFileParameter) :
    Except String SequenceFileStats :=
  fs.from_file (self.toFileParameter.absolute_path) "fasta"

/-- Observable content-stage events of one `SequenceFileParameter.parse` call:
an invocation of the stats extractor, and an evaluation of the predicate.
Each event records the stored path it was invoked on. -/
inductive Event where
  | statsCall (path : Option String)
  | predCall (path : Option String)
deriving DecidableEq

/-- Embeds `SequenceFileParameter.parse` (src/bioluigi/parameter.py, lines
55-65), instrumented with the list of content-stage events in evaluation
order.  The source first calls the superclass `parse` (which stores
`self.absolute_path`), then evaluates `self.predicate(self.stats())`:
`stats` runs first, a decode failure propagates before the predicate runs,
and the predicate-failure message formats the stored `self.absolute_path`. -/
def SequenceFileParameter.parseTr (fs : Fs) (self : SequenceFileParameter)
    (x : String) :
    (Except String String × SequenceFileParameter) × List Event :=
  match FileParameter.parse fs self.toFileParameter x with
  | (Except.error e, fp) => ((Except.error e, { self with toFileParameter := fp }), [])
  | (Except.ok absolute_path, fp) =>
    let selfAfter : SequenceFileParameter := { self with toFileParameter := fp }
    match SequenceFileParameter.stats fs selfAfter with
    | Except.error e =>
      ((Except.error e, selfAfter), [Event.statsCall fp.absolute_path])
    | Except.ok st =>
      let events := [Event.statsCall fp.absolute_path, Event.predCall fp.absolute_path]
      match value_error_if (!(selfAfter.predicate st))
          ("Sequence File " ++ (fp.absolute_path.getD ("None")) ++
            " does not satisfy the Predicate for the Sequence File stats.") with
      | Except.error e => ((Except.error e, selfAfter), events)
      | Except.ok _ => ((Except.ok absolute_path, selfAfter), events)

/-- The call interface of `SequenceFileParameter.parse`: the outcome and the
post-call instance state, with the event instrumentation dropped. -/
def SequenceFileParameter.parse (fs : Fs) (self : SequenceFileParameter)
    (x : String) : Except String String × SequenceFileParameter :=
  (SequenceFileParameter.parseTr fs self x).1

end bioluigi

namespace luigibio

/-- Embeds the state of the duplicate `FileParameter`
(src/src/luigibio/parameter.py, lines 12-20): only the requirement; this copy
never stores the resolved path on the instance. -/
structure FileParameter where
  existence : FileExistence
deriving DecidableEq

/-- Embeds `FileParameter.parse` (src/src/luigibio/parameter.py, lines 22-34):
textually the same three checks and messages as the bioluigi copy, returning
the resolved path without storing it. -/
def FileParameter.parse (fs : Fs) (self : FileParameter) (x : String) :
    Except String String :=
  let absolute_path := fs.abspath x
  match value_error_if (fs.islink absolute_path)
      "File \x7b\x7d is a symbolic link. This is currently not supported" with
  | Except.error e => Except.error e
  | Except.ok _ =>
    match value_error_if
        ((self.existence == FileExistence.EXISTING) && !(fs.isfile absolute_path))
        ("File " ++ absolute_path ++ " does not exist or it is not a regular file!") with
    | Except.error e => Except.error e
    | Except.ok _ =>
      match value_error_if
          ((self.existence == FileExistence.NON_EXISTING) && fs.pathExists absolute_path)
          ("File " ++ absolute_path ++ " exists, but it must not!") with
      | Except.error e => Except.error e
      | Except.ok _ => Except.ok absolute_path

end luigibio

/-- Concrete environment: every path is a regular, non-link, existing file
whose content decodes successfully. -/
def fsOkFile : Fs :=
  { abspath := fun x => "/" ++ x,
    islink := fun _ => false,
    isfile := fun _ => true,
    pathExists := fun _ => true,
    from_file := fun _ _ => Except.ok { view := 0 } }

/-- Concrete environment: every path is a symbolic link whose target is an
existing regular file. -/
def fsSymlink : Fs :=
  { abspath := fun x => "/" ++ x,
    islink := fun _ => true,
    isfile := fun _ => true,
    pathExists := fun _ => true,
    from_file := fun _ _ => Except.ok { view := 0 } }

/-- Concrete environment: nothing exists at any path. -/
def fsMissing : Fs :=
  { abspath := fun x => "/" ++ x,
    islink := fun _ => false,
    isfile := fun _ => false,
    pathExists := fun _ => false,
    from_file := fun _ _ => Except.error ("decode failed") }

/-! ## Helper lemmas about the base validator -/

theorem parse_fst_eq (fs : Fs) (s : bioluigi.FileParameter) (x : String) :
    (bioluigi.FileParameter.parse fs s x).1
      = luigibio.FileParameter.parse fs { existence := s.existence } x := by
  cases s with
  | mk e ap =>
    cases e <;>
      simp only [bioluigi.FileParameter.parse, luigibio.FileParameter.parse,
        value_error_if] <;>
      cases hL : fs.islink (fs.abspath x) <;>
      cases hF : fs.isfile (fs.abspath x) <;>
      cases hP : fs.pathExists (fs.abspath x) <;>
      simp [hL, hF, hP] <;> rfl

theorem base_parse_link (fs : Fs) (s : bioluigi.FileParameter) (x : String)
    (hL : fs.islink (fs.abspath x) = true) :
    bioluigi.FileParameter.parse fs s x
      = (Except.error ("File \x7b\x7d is a symbolic link. This is currently not supported"), s) := by
  simp only [bioluigi.FileParameter.parse, value_error_if, hL]
  rfl

theorem base_parse_missing (fs : Fs) (s : bioluigi.FileParameter) (x : String)
    (hL : fs.islink (fs.abspath x) = false)
    (he : s.existence = FileExistence.EXISTING)
    (hF : fs.isfile (fs.abspath x) = false) :
    bioluigi.FileParameter.parse fs s x
      = (Except.error ("File " ++ fs.abspath x ++ " does not exist or it is not a regular file!"), s) := by
  simp only [bioluigi.FileParameter.parse, value_error_if, hL, he, hF]
  rfl

theorem base_parse_mustnot (fs : Fs) (s : bioluigi.FileParameter) (x : String)
    (hL : fs.islink (fs.abspath x) = false)
    (he : s.existence = FileExistence.NON_EXISTING)
    (hP : fs.pathExists (fs.abspath x) = true) :
    bioluigi.FileParameter.parse fs s x
      = (Except.error ("File " ++ fs.abspath x ++ " exists, but it must not!"), s) := by
  simp only [bioluigi.FileParameter.parse, value_error_if, hL, he, hP]
  rfl

theorem base_parse_ok_existing (fs : Fs) (s : bioluigi.FileParameter) (x : String)
    (hL : fs.islink (fs.abspath x) = false)
    (he : s.existence = FileExistence.EXISTING)
    (hF : fs.isfile (fs.abspath x) = true) :
    bioluigi.FileParameter.parse fs s x
      = (Except.ok (fs.abspath x), { s with absolute_path := some (fs.abspath x) }) := by
  simp only [bioluigi.FileParameter.parse, value_error_if, hL, he, hF]
  rfl

theorem base_parse_ok_nonexisting (fs : Fs) (s : bioluigi.FileParameter) (x : String)
    (hL : fs.islink (fs.abspath x) = false)
    (he : s.existence = FileExistence.NON_EXISTING)
    (hP : fs.pathExists (fs.abspath x) = false) :
    bioluigi.FileParameter.parse fs s x
      = (Except.ok (fs.abspath x), { s with absolute_path := some (fs.abspath x) }) := by
  simp only [bioluigi.FileParameter.parse, value_error_if, hL, he, hP]
  rfl

theorem base_parse_shape (fs : Fs) (s : bioluigi.FileParameter) (x : String) :
    (∃ e, bioluigi.FileParameter.parse fs s x = (Except.error e, s))
    ∨ bioluigi.FileParameter.parse fs s x
        = (Except.ok (fs.abspath x), { s with absolute_path := some (fs.abspath x) }) := by
  cases hL : fs.islink (fs.abspath x) with
  | true => exact Or.inl ⟨_, base_parse_link fs s x hL⟩
  | false =>
    cases he : s.existence with
    | EXISTING =>
      cases hF : fs.isfile (fs.abspath x) with
      | true =>
        refine Or.inr ?_
        rw [base_parse_ok_existing fs s x hL he hF, he]
      | false => exact Or.inl ⟨_, base_parse_missing fs s x hL he hF⟩
    | NON_EXISTING =>
      cases hP : fs.pathExists (fs.abspath x) with
      | true => exact Or.inl ⟨_, base_parse_mustnot fs s x hL he hP⟩
      | false =>
        refine Or.inr ?_
        rw [base_parse_ok_nonexisting fs s x hL he hP, he]

theorem base_parse_fail_shape (fs : Fs) (s : bioluigi.FileParameter) (x : String)
    (h : (bioluigi.FileParameter.parse fs s x).1.isOk = false) :
    ∃ e, bioluigi.FileParameter.parse fs s x = (Except.error e, s) := by
  rcases base_parse_shape fs s x with ⟨e, he⟩ | hok
  · exact ⟨e, he⟩
  · rw [hok] at h
    simp [Except.isOk, Except.toBool] at h

theorem base_parse_ok_shape (fs : Fs) (s : bioluigi.FileParameter) (x : String)
    (h : (bioluigi.FileParameter.parse fs s x).1.isOk = true) :
    bioluigi.FileParameter.parse fs s x
      = (Except.ok (fs.abspath x), { s with absolute_path := some (fs.abspath x) }) := by
  rcases base_parse_shape fs s x with ⟨e, he⟩ | hok
  · rw [he] at h
    simp [Except.isOk, Except.toBool] at h
  · exact hok

/-! ## Helper lemmas about the content-gated validator -/

theorem parseTr_base_error (fs : Fs) (s : bioluigi.SequenceFileParameter) (x : String)
    (e : String) (fp : bioluigi.FileParameter)
    (h : bioluigi.FileParameter.parse fs s.toFileParameter x = (Except.error e, fp)) :
    bioluigi.SequenceFileParameter.parseTr fs s x
      = ((Except.error e, { s with toFileParameter := fp }), []) := by
  unfold bioluigi.SequenceFileParameter.parseTr
  rw [h]

theorem parseTr_decode_error (fs : Fs) (s : bioluigi.SequenceFileParameter) (x : String)
    (p : String) (fp : bioluigi.FileParameter) (e2 : String)
    (h : bioluigi.FileParameter.parse fs s.toFileParameter x = (Except.ok p, fp))
    (h2 : fs.from_file fp.absolute_path "fasta" = Except.error e2) :
    bioluigi.SequenceFileParameter.parseTr fs s x
      = ((Except.error e2, { s with toFileParameter := fp }),
         [bioluigi.Event.statsCall fp.absolute_path]) := by
  unfold bioluigi.SequenceFileParameter.parseTr
  rw [h]
  simp only [bioluigi.SequenceFileParameter.stats]
  rw [h2]

theorem parseTr_stats_ok (fs : Fs) (s : bioluigi.SequenceFileParameter) (x : String)
    (p : String) (fp : bioluigi.FileParameter) (st : SequenceFileStats)
    (h : bioluigi.FileParameter.parse fs s.toFileParameter x = (Except.ok p, fp))
    (h2 : fs.from_file fp.absolute_path "fasta" = Except.ok st) :
    bioluigi.SequenceFileParameter.parseTr fs s x
      = ((if s.predicate st then Except.ok p
          else Except.error ("Sequence File " ++ (fp.absolute_path.getD ("None")) ++
            " does not satisfy the Predicate for the Sequence File stats."),
          { s with toFileParameter := fp }),
         [bioluigi.Event.statsCall fp.absolute_path,
          bioluigi.Event.predCall fp.absolute_path]) := by
  unfold bioluigi.SequenceFileParameter.parseTr
  rw [h]
  simp only [bioluigi.SequenceFileParameter.stats]
  rw [h2]
  cases hp : s.predicate st <;> simp [value_error_if, hp]

theorem base_parse_snd_existence (fs : Fs) (s : bioluigi.FileParameter) (x : String) :
    (bioluigi.FileParameter.parse fs s x).2.existence = s.existence := by
  rcases base_parse_shape fs s x with ⟨e, he⟩ | hok
  · rw [he]
  · rw [hok]

theorem seq_parse_snd_fields (fs : Fs) (s : bioluigi.SequenceFileParameter) (x : String) :
    (bioluigi.SequenceFileParameter.parse fs s x).2.toFileParameter.existence
        = s.toFileParameter.existence
    ∧ (bioluigi.SequenceFileParameter.parse fs s x).2.predicate = s.predicate := by
  unfold bioluigi.SequenceFileParameter.parse
  rcases base_parse_shape fs s.toFileParameter x with ⟨e, he⟩ | hok
  · rw [parseTr_base_error fs s x e _ he]
    exact ⟨rfl, rfl⟩
  · cases h2 : fs.from_file (some (fs.abspath x)) "fasta" with
    | error e2 =>
      rw [parseTr_decode_error fs s x _ _ e2 hok h2]
      exact ⟨rfl, rfl⟩
    | ok st =>
      rw [parseTr_stats_ok fs s x _ _ st hok h2]
      exact ⟨rfl, rfl⟩

theorem seq_parse_fst_congr (fs : Fs) (s1 s2 : bioluigi.SequenceFileParameter) (x : String)
    (he : s1.toFileParameter.existence = s2.toFileParameter.existence)
    (hp : s1.predicate = s2.predicate) :
    (bioluigi.SequenceFileParameter.parse fs s1 x).1
      = (bioluigi.SequenceFileParameter.parse fs s2 x).1 := by
  have hbase : (bioluigi.FileParameter.parse fs s1.toFileParameter x).1
      = (bioluigi.FileParameter.parse fs s2.toFileParameter x).1 := by
    rw [parse_fst_eq fs s1.toFileParameter x, parse_fst_eq fs s2.toFileParameter x, he]
  unfold bioluigi.SequenceFileParameter.parse
  rcases base_parse_shape fs s1.toFileParameter x with ⟨e, he1⟩ | hok1 <;>
    rcases base_parse_shape fs s2.toFileParameter x with ⟨e2, he2⟩ | hok2
  · rw [he1, he2] at hbase
    simp only [Except.error.injEq] at hbase
    rw [parseTr_base_error fs s1 x e _ he1, parseTr_base_error fs s2 x e2 _ he2, hbase]
  · rw [he1, hok2] at hbase
    simp at hbase
  · rw [he2, hok1] at hbase
    simp at hbase
  · cases h2 : fs.from_file (some (fs.abspath x)) "fasta" with
    | error e2 =>
      rw [parseTr_decode_error fs s1 x _ _ e2 hok1 h2,
          parseTr_decode_error fs s2 x _ _ e2 hok2 h2]
    | ok st =>
      rw [parseTr_stats_ok fs s1 x _ _ st hok1 h2,
          parseTr_stats_ok fs s2 x _ _ st hok2 h2, hp]

/-! ## Claim theorems -/

/-- C2: for every raw input whose normalized absolute path is a symbolic link,
`FileParameter.parse` fails with the link-rejection ValueError — for both
requirement values and for every state of the link target (`isfile` and
`exists` are unconstrained) — so the link rule fires before any existence
check. -/
theorem C2_symlink_always_rejected (fs : Fs) (s : bioluigi.FileParameter)
    (x : String) (hL : fs.islink (fs.abspath x) = true) :
    (bioluigi.FileParameter.parse fs s x).1
      = Except.error ("File \x7b\x7d is a symbolic link. This is currently not supported") := by
  rw [base_parse_link fs s x hL]

/-- Witness for C2 at a concrete input: a symbolic link whose target is an
existing regular file, under the MustNotExist requirement. -/
theorem C2_symlink_always_rejected_witness :
    (bioluigi.FileParameter.parse fsSymlink
        (bioluigi.FileParameter.init FileExistence.NON_EXISTING) "a").1
      = Except.error ("File \x7b\x7d is a symbolic link. This is currently not supported") :=
  C2_symlink_always_rejected fsSymlink
    (bioluigi.FileParameter.init FileExistence.NON_EXISTING) "a" rfl

/-- C3: for every raw input whose normalized absolute path is not a symbolic
link, validation with the EXISTING requirement succeeds if and only if the
normalized path names an existing regular file (`os.path.isfile`); it fails
for everything else, directories and nonexistent paths included. -/
theorem C3_mustexist_iff_regular_file (fs : Fs) (s : bioluigi.FileParameter)
    (x : String) (hL : fs.islink (fs.abspath x) = false)
    (he : s.existence = FileExistence.EXISTING) :
    (bioluigi.FileParameter.parse fs s x).1.isOk = true
      ↔ fs.isfile (fs.abspath x) = true := by
  cases hF : fs.isfile (fs.abspath x) with
  | true =>
    rw [base_parse_ok_existing fs s x hL he hF]
    simp [Except.isOk, Except.toBool]
  | false =>
    rw [base_parse_missing fs s x hL he hF]
    simp [Except.isOk, Except.toBool]

/-- Witness for C3 at a concrete input: a non-link existing regular file under
the EXISTING requirement validates successfully. -/
theorem C3_mustexist_iff_regular_file_witness :
    (bioluigi.FileParameter.parse fsOkFile
        (bioluigi.FileParameter.init FileExistence.EXISTING) "a").1.isOk = true :=
  (C3_mustexist_iff_regular_file fsOkFile
    (bioluigi.FileParameter.init FileExistence.EXISTING) "a" rfl rfl).mpr rfl

/-- C4: for every raw input whose normalized absolute path is not a symbolic
link, validation with the NON_EXISTING requirement succeeds if and only if
nothing exists at the normalized path (`os.path.exists` is false), whatever
kind of object an existing path names. -/
theorem C4_mustnotexist_iff_absent (fs : Fs) (s : bioluigi.FileParameter)
    (x : String) (hL : fs.islink (fs.abspath x) = false)
    (he : s.existence = FileExistence.NON_EXISTING) :
    (bioluigi.FileParameter.parse fs s x).1.isOk = true
      ↔ fs.pathExists (fs.abspath x) = false := by
  cases hP : fs.pathExists (fs.abspath x) with
  | true =>
    rw [base_parse_mustnot fs s x hL he hP]
    simp [Except.isOk, Except.toBool]
  | false =>
    rw [base_parse_ok_nonexisting fs s x hL he hP]
    simp [Except.isOk, Except.toBool]

/-- Witness for C4 at a concrete input: a nonexistent non-link path under the
NON_EXISTING requirement validates successfully. -/
theorem C4_mustnotexist_iff_absent_witness :
    (bioluigi.FileParameter.parse fsMissing
        (bioluigi.FileParameter.init FileExistence.NON_EXISTING) "a").1.isOk = true :=
  (C4_mustnotexist_iff_absent fsMissing
    (bioluigi.FileParameter.init FileExistence.NON_EXISTING) "a" rfl rfl).mpr rfl

/-- C7: the `SequenceFileParameter` constructor fixes the existence
requirement at construction: for every predicate, the constructed instance
carries exactly the superclass state built with `FileExistence.EXISTING` (its
only constructor argument is the predicate, so nothing can select
NON_EXISTING), and it stores the supplied predicate unchanged. -/
theorem C7_requirement_fixed_existing (pred : SequenceFileStats → Bool) :
    (bioluigi.SequenceFileParameter.init pred).toFileParameter
        = bioluigi.FileParameter.init FileExistence.EXISTING
    ∧ (bioluigi.SequenceFileParameter.init pred).predicate = pred :=
  ⟨rfl, rfl⟩

/-- C10: the two duplicate validators agree at the call interface: for every
environment, requirement, instance state and raw input, the luigibio copy
returns exactly the outcome component of the bioluigi copy — same error
message on failure, same normalized absolute path on success; the copies
differ only in the stored-path side effect carried by the bioluigi state. -/
theorem C10_duplicate_parse_equivalent (fs : Fs) (e : FileExistence)
    (ap : Option String) (x : String) :
    luigibio.FileParameter.parse fs { existence := e } x
      = (bioluigi.FileParameter.parse fs { existence := e, absolute_path := ap } x).1 :=
  (parse_fst_eq fs { existence := e, absolute_path := ap } x).symm

/-- C1 as stated is false at the content stage: with every path an existing
regular non-link file and the constant-false predicate, the gated validation
call fails (predicate failure), yet the instance ends the call with the
resolved path "/a" stored — the path from the path-check stage is retained. -/
theorem C1_failure_leaves_no_path_counterexample :
    (bioluigi.SequenceFileParameter.parse fsOkFile
        (bioluigi.SequenceFileParameter.init (fun _ => false)) "a").1.isOk = false
    ∧ (bioluigi.SequenceFileParameter.parse fsOkFile
        (bioluigi.SequenceFileParameter.init (fun _ => false)) "a").2.toFileParameter.absolute_path
      = some ("/a") := by
  exact ⟨rfl, by decide⟩

/-- C1 (amended): atomicity holds at the path level only.  (1) A failed base
`FileParameter.parse` leaves the instance state unchanged, so no resolved
path is stored; (2) a gated `SequenceFileParameter.parse` whose path-level
check fails likewise leaves the instance unchanged; but (3) when the
path-level check passes and the call then fails at the content stage (decode
error or predicate false), the resolved path from the path stage remains
stored on the instance, because the superclass `parse` stores it before the
predicate is checked. -/
theorem C1_failure_state_amended :
    (∀ (fs : Fs) (s : bioluigi.FileParameter) (x : String),
        (bioluigi.FileParameter.parse fs s x).1.isOk = false →
        (bioluigi.FileParameter.parse fs s x).2 = s)
    ∧ (∀ (fs : Fs) (s : bioluigi.SequenceFileParameter) (x : String),
        (bioluigi.FileParameter.parse fs s.toFileParameter x).1.isOk = false →
        (bioluigi.SequenceFileParameter.parse fs s x).2 = s)
    ∧ (∀ (fs : Fs) (s : bioluigi.SequenceFileParameter) (x : String),
        (bioluigi.FileParameter.parse fs s.toFileParameter x).1.isOk = true →
        (bioluigi.SequenceFileParameter.parse fs s x).1.isOk = false →
        (bioluigi.SequenceFileParameter.parse fs s x).2.toFileParameter.absolute_path
          = some (fs.abspath x)) := by
  refine ⟨?_, ?_, ?_⟩
  · intro fs s x h
    obtain ⟨e, he⟩ := base_parse_fail_shape fs s x h
    rw [he]
  · intro fs s x h
    obtain ⟨e, he⟩ := base_parse_fail_shape fs s.toFileParameter x h
    unfold bioluigi.SequenceFileParameter.parse
    rw [parseTr_base_error fs s x e _ he]
  · intro fs s x h1 _h2
    have hok := base_parse_ok_shape fs s.toFileParameter x h1
    unfold bioluigi.SequenceFileParameter.parse
    cases hff : fs.from_file (some (fs.abspath x)) "fasta" with
    | error e2 => rw [parseTr_decode_error fs s x _ _ e2 hok hff]
    | ok st => rw [parseTr_stats_ok fs s x _ _ st hok hff]

/-- Witness for the amended C1 at concrete inputs: a link-rejected base call
and a link-rejected gated call leave their instances unchanged, and a gated
call that passes the path stage but fails the predicate retains the stored
resolved path. -/
theorem C1_failure_state_amended_witness :
    (bioluigi.FileParameter.parse fsSymlink
        (bioluigi.FileParameter.init FileExistence.EXISTING) "a").2
      = bioluigi.FileParameter.init FileExistence.EXISTING
    ∧ (bioluigi.SequenceFileParameter.parse fsSymlink
        (bioluigi.SequenceFileParameter.init (fun _ => true)) "a").2
      = bioluigi.SequenceFileParameter.init (fun _ => true)
    ∧ (bioluigi.SequenceFileParameter.parse fsOkFile
        (bioluigi.SequenceFileParameter.init (fun _ => false)) "a").2.toFileParameter.absolute_path
      = some (fsOkFile.abspath "a") := by
  refine ⟨C1_failure_state_amended.1 fsSymlink _ "a" rfl,
          C1_failure_state_amended.2.1 fsSymlink _ "a" rfl,
          C1_failure_state_amended.2.2 fsOkFile _ "a" rfl rfl⟩

/-- C5: the content stage is gated on the path stage: when the path-level
check fails the instrumented call records no content-stage event at all (the
stats extractor is never invoked, so the predicate is not either); the
predicate is evaluated at most once per call; and every predicate evaluation
happens on the stored path produced by a successful path-level check. -/
theorem C5_extractor_and_predicate_gated :
    ∀ (fs : Fs) (s : bioluigi.SequenceFileParameter) (x : String),
      ((bioluigi.FileParameter.parse fs s.toFileParameter x).1.isOk = false →
        (bioluigi.SequenceFileParameter.parseTr fs s x).2 = [])
      ∧ (bioluigi.SequenceFileParameter.parseTr fs s x).2.countP
            (fun ev => match ev with
              | bioluigi.Event.predCall _ => true
              | bioluigi.Event.statsCall _ => false) ≤ 1
      ∧ (∀ q, bioluigi.Event.predCall q ∈ (bioluigi.SequenceFileParameter.parseTr fs s x).2 →
          (bioluigi.FileParameter.parse fs s.toFileParameter x).1.isOk = true
          ∧ q = some (fs.abspath x)) := by
  intro fs s x
  rcases base_parse_shape fs s.toFileParameter x with ⟨e, he⟩ | hok
  · rw [parseTr_base_error fs s x e _ he]
    refine ⟨fun _ => rfl, Nat.zero_le 1, ?_⟩
    intro q hq
    simp at hq
  · have hbase : (bioluigi.FileParameter.parse fs s.toFileParameter x).1.isOk = true := by
      rw [hok]; rfl
    cases hff : fs.from_file (some (fs.abspath x)) "fasta" with
    | error e2 =>
      rw [parseTr_decode_error fs s x _ _ e2 hok hff]
      refine ⟨fun hc => Bool.noConfusion (hbase.symm.trans hc), Nat.zero_le 1, ?_⟩
      intro q hq
      simp at hq
    | ok st =>
      rw [parseTr_stats_ok fs s x _ _ st hok hff]
      refine ⟨fun hc => Bool.noConfusion (hbase.symm.trans hc), Nat.le_refl 1, ?_⟩
      intro q hq
      simp at hq
      exact ⟨hbase, hq⟩

/-- Witness for C5 at concrete inputs: under a link-rejecting environment the
instrumented gated call records no content-stage event, and under a fully
accepting environment the predicate evaluation recorded in the trace is on
the stored path of a successful path-level check. -/
theorem C5_extractor_and_predicate_gated_witness :
    (bioluigi.SequenceFileParameter.parseTr fsSymlink
        (bioluigi.SequenceFileParameter.init (fun _ => true)) "a").2 = []
    ∧ ((bioluigi.FileParameter.parse fsOkFile
          (bioluigi.SequenceFileParameter.init (fun _ => true)).toFileParameter "a").1.isOk
        = true
      ∧ some (fsOkFile.abspath "a") = some (fsOkFile.abspath "a")) := by
  refine ⟨(C5_extractor_and_predicate_gated fsSymlink
      (bioluigi.SequenceFileParameter.init (fun _ => true)) "a").1 rfl,
    (C5_extractor_and_predicate_gated fsOkFile
      (bioluigi.SequenceFileParameter.init (fun _ => true)) "a").2.2
      (some (fsOkFile.abspath "a")) (by decide)⟩

/-- C6 fails for the link-rejection kind: at a concrete symbolic-link input
whose normalized absolute path is "/a", the raised message is the literal
unformatted template — the source never applies `.format` to it — and that
message cannot contain the offending path, since it holds no "/" character
while every normalized absolute path starts with one.  (The other three
failure kinds do interpolate the path; the link kind is the violation.) -/
theorem C6_link_message_lacks_path :
    (bioluigi.FileParameter.parse fsSymlink
        (bioluigi.FileParameter.init FileExistence.EXISTING) "a").1
      = Except.error ("File \x7b\x7d is a symbolic link. This is currently not supported")
    ∧ fsSymlink.abspath "a" = "/a"
    ∧ '/' ∉ ("File \x7b\x7d is a symbolic link. This is currently not supported").data
    ∧ '/' ∈ ("/a").data := by
  exact ⟨rfl, by decide, by decide, by decide⟩

/-- C8: when the gated validation succeeds with value `p`, the underlying
path-level validation succeeds with exactly the same `p`, `p` is the
normalized absolute path of the raw input, and the stored path on the final
instance state is that same `p` — the content stage never alters the path. -/
theorem C8_success_returns_base_path (fs : Fs) (s : bioluigi.SequenceFileParameter)
    (x : String) (p : String)
    (h : (bioluigi.SequenceFileParameter.parse fs s x).1 = Except.ok p) :
    (bioluigi.FileParameter.parse fs s.toFileParameter x).1 = Except.ok p
    ∧ p = fs.abspath x
    ∧ (bioluigi.SequenceFileParameter.parse fs s x).2.toFileParameter.absolute_path
        = some p := by
  rcases base_parse_shape fs s.toFileParameter x with ⟨e, he⟩ | hok
  · unfold bioluigi.SequenceFileParameter.parse at h
    rw [parseTr_base_error fs s x e _ he] at h
    exact Except.noConfusion h
  · cases hff : fs.from_file (some (fs.abspath x)) "fasta" with
    | error e2 =>
      unfold bioluigi.SequenceFileParameter.parse at h
      rw [parseTr_decode_error fs s x _ _ e2 hok hff] at h
      exact Except.noConfusion h
    | ok st =>
      unfold bioluigi.SequenceFileParameter.parse at h
      rw [parseTr_stats_ok fs s x _ _ st hok hff] at h
      cases hpred : s.predicate st with
      | false =>
        rw [hpred] at h
        simp at h
      | true =>
        rw [hpred] at h
        simp only [if_true] at h
        have hp : fs.abspath x = p := by
          simpa using h
        refine ⟨?_, hp.symm, ?_⟩
        · rw [hok, hp]
        · unfold bioluigi.SequenceFileParameter.parse
          rw [parseTr_stats_ok fs s x _ _ st hok hff, hp]

/-- Witness for C8 at a concrete input: a fully accepting environment with the
constant-true predicate, where the gated call succeeds with "/a". -/
theorem C8_success_returns_base_path_witness :
    (bioluigi.FileParameter.parse fsOkFile
        (bioluigi.SequenceFileParameter.init (fun _ => true)).toFileParameter "a").1
      = Except.ok (fsOkFile.abspath "a")
    ∧ fsOkFile.abspath "a" = fsOkFile.abspath "a"
    ∧ (bioluigi.SequenceFileParameter.parse fsOkFile
        (bioluigi.SequenceFileParameter.init (fun _ => true)) "a").2.toFileParameter.absolute_path
      = some (fsOkFile.abspath "a") :=
  C8_success_returns_base_path fsOkFile
    (bioluigi.SequenceFileParameter.init (fun _ => true)) "a" (fsOkFile.abspath "a") rfl

/-- C9: validation is deterministic and idempotent.  (1) Re-running the base
`parse` on the state a first call produced yields the same outcome; (2) the
same holds for the gated `parse`; (3) the gated outcome is a function of the
environment, the declared requirement and the predicate only — two instances
agreeing on those agree on the outcome, so no hidden per-instance caching
affects it. -/
theorem C9_parse_idempotent_deterministic :
    (∀ (fs : Fs) (s : bioluigi.FileParameter) (x : String),
        (bioluigi.FileParameter.parse fs (bioluigi.FileParameter.parse fs s x).2 x).1
          = (bioluigi.FileParameter.parse fs s x).1)
    ∧ (∀ (fs : Fs) (s : bioluigi.SequenceFileParameter) (x : String),
        (bioluigi.SequenceFileParameter.parse fs
            (bioluigi.SequenceFileParameter.parse fs s x).2 x).1
          = (bioluigi.SequenceFileParameter.parse fs s x).1)
    ∧ (∀ (fs : Fs) (s1 s2 : bioluigi.SequenceFileParameter) (x : String),
        s1.toFileParameter.existence = s2.toFileParameter.existence →
        s1.predicate = s2.predicate →
        (bioluigi.SequenceFileParameter.parse fs s1 x).1
          = (bioluigi.SequenceFileParameter.parse fs s2 x).1) := by
  refine ⟨?_, ?_, ?_⟩
  · intro fs s x
    rw [parse_fst_eq fs (bioluigi.FileParameter.parse fs s x).2 x,
        parse_fst_eq fs s x, base_parse_snd_existence fs s x]
  · intro fs s x
    exact seq_parse_fst_congr fs _ s x (seq_parse_snd_fields fs s x).1
      (seq_parse_snd_fields fs s x).2
  · intro fs s1 s2 x he hp
    exact seq_parse_fst_congr fs s1 s2 x he hp

/-- Witness for C9: the determinism conjunct applied to two concretely equal
instance configurations under a fully accepting environment. -/
theorem C9_parse_idempotent_deterministic_witness :
    (bioluigi.SequenceFileParameter.parse fsOkFile
        (bioluigi.SequenceFileParameter.init (fun _ => true)) "a").1
      = (bioluigi.SequenceFileParameter.parse fsOkFile
          { toFileParameter := { existence := FileExistence.EXISTING,
                                 absolute_path := some ("/b") },
            predicate := fun _ => true } "a").1 :=
  C9_parse_idempotent_deterministic.2.2 fsOkFile
    (bioluigi.SequenceFileParameter.init (fun _ => true))
    { toFileParameter := { existence := FileExistence.EXISTING,
                           absolute_path := some ("/b") },
      predicate := fun _ => true } "a" rfl rfl
